import Mathlib

/-!
Shallow embedding of the LEV longevity-trajectory engine (`src/lev_math.ts`)
over the real numbers, together with theorems settling the frozen claims
about the engine.  Every definition mirrors the corresponding TypeScript
function; JavaScript IEEE doubles are modelled by `ℝ`, JS `Math.round` by
the Mathlib function `round` (both round half toward positive infinity),
and array reads `a[i] ?? d` by `List.getD i d`.
-/

noncomputable section

namespace LevMath

/-! ### 0. Constants & config (lev_math.ts lines 7-20) -/

def MAX_AGE_INTERNAL : ℕ := 200
def HEALTH_MIDPOINT_BIOAGE : ℝ := 72
def HEALTH_STEEPNESS : ℝ := 9
def HEALTHSPAN_THRESHOLD : ℝ := 0.70
def PROGRESS_RATE_BASE : ℝ := 0.018
def PROGRESS_SIGMA0 : ℝ := 0.030
def UPTAKE_SIGMOID_WIDTH : ℝ := 0.12
def FRAILTY_A : ℝ := 0.65
def LEV_K : ℝ := Real.log 4 / 5
def LEV_MEDIAN_95 : ℝ := 2040
def LEV_LAG_50_VS_95 : ℝ := 10
def OPTIMISM_YEAR_SHIFT_PER_STEP : ℝ := 3
def REJUV_TAU : ℝ := 6
def REJUV_EXTRA : ℝ := 0.20

/-- Z_SCORES lookup (`Z_SCORES[c] ?? 0`, lines 23-33). -/
def getZScoreForCentile (c : ℝ) : ℝ :=
  if c = 5 then -1.644853626
  else if c = 25 then -0.674489750
  else if c = 50 then 0
  else if c = 75 then 0.674489750
  else if c = 95 then 1.644853626
  else 0

/-! ### 1. Utilities (lines 41-53) -/

def sigmoid (x : ℝ) : ℝ := 1 / (1 + Real.exp (-x))

def qToH (q : ℝ) : ℝ := if 1 ≤ q then 100 else -Real.log (1 - q)

def hToQ (h : ℝ) : ℝ := 1 - Real.exp (-h)

/-! ### 2. Core model functions -/

/-- Longevity score to frailty hazard multiplier (lines 60-66). -/
def getFrailtyMultiplier (score : ℝ) : ℝ :=
  Real.exp (FRAILTY_A * (0.5 - score / 100))

/-- Uptake factor u(p) (lines 69-71). -/
def getUptakeFactor (p : ℝ) : ℝ :=
  0.6 + 0.8 * sigmoid ((p - 0.5) / UPTAKE_SIGMOID_WIDTH)

/-- `optimismFactoryLimited` (lines 115-117). -/
def optimismFactoryLimited (opt : ℝ) : ℝ := max (-1) (min 1 (opt * 0.1))

/-- Medical progress hazard multiplier r(y, p, qtile, optimism, horizonYear)
(lines 74-113). -/
def getProgressMultiplier (year score quantileKey optimism horizonYear
    currentYear : ℝ) : ℝ :=
  let p := score / 100
  let elapsedYears := max 0 (min year horizonYear - currentYear)
  if elapsedYears ≤ 0 then 1.0
  else if optimism ≤ -10 then 1.0
  else
    let optimismFactor := optimism * 0.1
    let k := PROGRESS_RATE_BASE * (1 + optimismFactor)
    let u_p := getUptakeFactor p
    let mu := -k * elapsedYears * u_p
    let sigma := PROGRESS_SIGMA0 * Real.sqrt elapsedYears *
      (1 - 0.1 * optimismFactoryLimited optimism)
    let z_q := getZScoreForCentile quantileKey
    let r := Real.exp (mu + z_q * sigma)
    min 1.20 (max 0.01 r)

/-! ### 6. LEV parameters & PMF (lines 120-210) -/

structure LevParams where
  medianYear : ℝ
  probMass : List ℝ

/-- The adoption-lag `shift` computed from `targetScore` inside
`computeLevDistribution` (lines 150-169). -/
def levShift (targetScore : ℝ) : ℝ :=
  if 95 ≤ targetScore then 0
  else if 75 ≤ targetScore then 9 * (1 - (targetScore - 75) / (95 - 75))
  else if 50 ≤ targetScore then 15 - (15 - 9) * ((targetScore - 50) / (75 - 50))
  else 60 - (60 - 15) * ((max 1 targetScore - 1) / (50 - 1))

/-- `speedFactor` with the division-degeneracy floor (lines 189-190). -/
def levSpeedFactor (optimism : ℝ) : ℝ :=
  let sf := 1 + 0.1 * optimism
  if sf ≤ 0.01 then 0.001 else sf

/-- The LEV median year `m` (lines 192-196). -/
def levMedianCalc (targetScore optimism currentYear : ℝ) : ℝ :=
  currentYear +
    (max 0 (LEV_MEDIAN_95 - currentYear) + levShift targetScore) /
      levSpeedFactor optimism

/-- The logistic CDF used inside the PMF loop (lines 203-205). -/
def levCdf (m y : ℝ) : ℝ := 1 / (1 + Real.exp (-LEV_K * (y - m)))

/-- `computeLevDistribution` (lines 125-210).  The TS loop pushes one entry
for `y = currentYear, currentYear+1, …, currentYear+120`, i.e. 121 entries. -/
def computeLevDistribution (targetScore optimism currentYear : ℝ) : LevParams :=
  if optimism ≤ -10 then { medianYear := 9999, probMass := [] }
  else
    let m := levMedianCalc targetScore optimism currentYear
    { medianYear := m
      probMass := (List.range 121).map fun i : ℕ =>
        levCdf m (currentYear + (i : ℝ)) - levCdf m (currentYear + (i : ℝ) - 1) }

/-! ### 7. Pace of aging (lines 214-252) -/

/-- `getPaceOfAging` (lines 214-252), translated line by line. -/
def getPaceOfAging (year score quantileKey optimism horizonYear currentYear
    levMedianYear : ℝ) : ℝ :=
  let yLEV : ℝ := (round levMedianYear : ℤ)
  let zScoreVal := getFrailtyMultiplier score
  let r_q := getProgressMultiplier year score quantileKey optimism horizonYear
    currentYear
  let r_lev_median := getProgressMultiplier yLEV score 50 optimism horizonYear
    currentYear
  let paceBaseAtLev := zScoreVal * r_lev_median
  let lambda := paceBaseAtLev + REJUV_EXTRA
  let L := if yLEV ≤ year ∧ -10 < optimism then
      lambda * (1 - Real.exp (-(year - yLEV) / REJUV_TAU))
    else 0
  min 2.00 (max (-0.50) (zScoreVal * r_q - L))

/-- The rejuvenation pull L of `getPaceOfAging` (lines 238-248) as a
standalone function: it takes no quantile-key argument. -/
def rejuvenationPull (year score optimism horizonYear currentYear
    levMedianYear : ℝ) : ℝ :=
  let yLEV : ℝ := (round levMedianYear : ℤ)
  let lambda := getFrailtyMultiplier score *
    getProgressMultiplier yLEV score 50 optimism horizonYear currentYear +
    REJUV_EXTRA
  if yLEV ≤ year ∧ -10 < optimism then
    lambda * (1 - Real.exp (-(year - yLEV) / REJUV_TAU))
  else 0

/-! ### 8. Health index (lines 255-257) -/

def bioAgeToHealth (bioAge : ℝ) : ℝ :=
  1 / (1 + Real.exp ((bioAge - HEALTH_MIDPOINT_BIOAGE) / HEALTH_STEEPNESS))

/-! ### 9. Cohort generation (lines 262-472) -/

/-- The external life table consumed by the engine (lev_data_loader). -/
structure LifeTable where
  ages : List ℕ
  qx : List ℝ

inductive Sex where
  | male
  | female

structure SimulationResult where
  survival : List ℝ
  annualSurvival : List ℝ
  bioAge : List ℝ
  health : List ℝ
  aliveHealthy : List ℝ
  pace : List ℝ
  lifeExpectancy : ℝ
  healthExpectancy : ℝ
  isIndefinite : Bool

/-- The fixed arguments of one `simulateCohort` call. -/
structure CohortCtx where
  startAge : ℕ
  startScore : ℝ
  targetScore : ℝ
  horizonYear : ℝ
  optimism : ℝ
  lifeTable : LifeTable
  currentYear : ℝ
  isProtocol : Bool
  progressQuantile : ℝ

/-- `levMedian` precomputed before the loop (lines 302-306). -/
def cohortLevMedian (c : CohortCtx) : ℝ :=
  if c.isProtocol then
    (computeLevDistribution c.targetScore c.optimism c.currentYear).medianYear
  else 0

/-- `effectiveScore` for loop offset `n = a - startAge = year - currentYear`
(lines 360-364). -/
def effectiveScoreAt (c : CohortCtx) (n : ℕ) : ℝ :=
  if c.isProtocol ∧ n < 10 then
    c.startScore + (c.targetScore - c.startScore) * ((n : ℝ) / 10)
  else if c.isProtocol then c.targetScore
  else c.startScore

/-- The pace `p` computed in loop iteration `n` (lines 366-376); it does not
depend on the running state. -/
def cohortPaceAt (c : CohortCtx) (n : ℕ) : ℝ :=
  let year := c.currentYear + n
  let eff := effectiveScoreAt c n
  if c.isProtocol then
    getPaceOfAging year eff c.progressQuantile c.optimism c.horizonYear
      c.currentYear (cohortLevMedian c)
  else
    getFrailtyMultiplier eff *
      getProgressMultiplier year eff 50 c.optimism c.horizonYear c.currentYear

/-- `qFinal` of loop iteration `n` given the current biological age `B`
(lines 383-410). -/
def cohortQFinalAt (c : CohortCtx) (n : ℕ) (B : ℝ) : ℝ :=
  let year := c.currentYear + n
  let eff := effectiveScoreAt c n
  let ageIdx : ℕ := (max 0 ⌊B⌋).toNat
  let tableIdx : ℕ := min ageIdx (c.lifeTable.ages.getLastD 0)
  let qBase := c.lifeTable.qx.getD tableIdx 0.99
  let h0 := qToH qBase
  let zScore := getFrailtyMultiplier eff
  let p := cohortPaceAt c n
  let mult :=
    if c.isProtocol then
      let r := getProgressMultiplier year eff c.progressQuantile c.optimism
        c.horizonYear c.currentYear
      let m0 := zScore * r
      if p < 0 then m0 * Real.exp (2.0 * p) else m0
    else
      zScore *
        getProgressMultiplier year eff 50 c.optimism c.horizonYear c.currentYear
  let hFinal := h0 * max 0.05 (min 2.5 mult)
  min 0.999 (hToQ hFinal)

/-- The state `(S, B)` after `n` loop iterations: `S` starts at 1.0, `B` at
`startAge * frailtyMultiplier(startScore)` (lines 295-299), updated by
`S ← S*(1-qFinal)`, `B ← B+p` (lines 413-414). -/
def cohortState (c : CohortCtx) : ℕ → ℝ × ℝ
  | 0 => (1, (c.startAge : ℝ) * getFrailtyMultiplier c.startScore)
  | n + 1 =>
    let SB := cohortState c n
    (SB.1 * (1 - cohortQFinalAt c n SB.2), SB.2 + cohortPaceAt c n)

/-- The initial pace pushed before the loop (lines 333-337): note it uses
`targetScore` (protocol) resp. `startScore` directly. -/
def initialPaceVal (c : CohortCtx) : ℝ :=
  if c.isProtocol then
    getPaceOfAging c.currentYear c.targetScore c.progressQuantile c.optimism
      c.horizonYear c.currentYear (cohortLevMedian c)
  else
    getFrailtyMultiplier c.startScore *
      getProgressMultiplier c.currentYear c.startScore 50 c.optimism
        c.horizonYear c.currentYear

/-- Number of loop iterations: `a` runs over `startAge … MAX_AGE_INTERNAL-1`
(line 351). -/
def cohortSteps (c : CohortCtx) : ℕ := MAX_AGE_INTERNAL - c.startAge

/-- The `survival` output array: initial push of `S = 1` plus one push per
iteration (lines 316, 420). -/
def cohortSurvivalList (c : CohortCtx) : List ℝ :=
  (List.range (cohortSteps c + 1)).map fun n => (cohortState c n).1

/-- The `bioAge` output array (lines 317, 424). -/
def cohortBioAgeList (c : CohortCtx) : List ℝ :=
  (List.range (cohortSteps c + 1)).map fun n => (cohortState c n).2

/-- The `pace` output array (lines 337, 429). -/
def cohortPaceList (c : CohortCtx) : List ℝ :=
  initialPaceVal c :: ((List.range (cohortSteps c)).map fun n => cohortPaceAt c n)

/-- The `annualSurvival` output array (lines 346-348, 422). -/
def cohortAnnualSurvivalList (c : CohortCtx) : List ℝ :=
  let idx0 := min c.startAge (c.lifeTable.ages.getLastD 0)
  let q0 := c.lifeTable.qx.getD idx0 0.001
  (1 - q0) ::
    ((List.range (cohortSteps c)).map fun n =>
      1 - cohortQFinalAt c n (cohortState c n).2)

/-- `simulateCohort` (lines 274-472). -/
def simulateCohort (startAge : ℕ) (_sex : Sex)
    (startScore targetScore horizonYear optimism : ℝ) (lifeTable : LifeTable)
    (currentYear : ℝ) (isProtocol : Bool) (progressQuantile : ℝ) :
    SimulationResult :=
  let c : CohortCtx :=
    { startAge := startAge, startScore := startScore, targetScore := targetScore
      horizonYear := horizonYear, optimism := optimism, lifeTable := lifeTable
      currentYear := currentYear, isProtocol := isProtocol
      progressQuantile := progressQuantile }
  let survival := cohortSurvivalList c
  let bioAge := cohortBioAgeList c
  let health := bioAge.map bioAgeToHealth
  let aliveHealthy := List.zipWith (fun s h => s * h) survival health
  let pace := cohortPaceList c
  let lifeExpectancy := survival.sum - 0.5
  let healthExpectancy :=
    (List.zipWith (fun s h => if HEALTHSPAN_THRESHOLD ≤ h then s else 0)
      survival health).sum - 0.5
  { survival := survival
    annualSurvival := cohortAnnualSurvivalList c
    bioAge := bioAge
    health := health
    aliveHealthy := aliveHealthy
    pace := pace
    lifeExpectancy := lifeExpectancy
    healthExpectancy := healthExpectancy
    isIndefinite :=
      if isProtocol = true ∧ pace.getLastD 0 < -0.1 ∧
          survival.getLastD 0 > 0.01 then true else false }

/-! ### 10. Probability of achieving LEV (lines 475-517) -/

/-- `calculateLevProb` (lines 475-517).  The TS loop adds
`refSurvival[i] * probMass[i]` for every `i` below both lengths, which is
exactly `zipWith (*)` followed by `sum`. -/
def calculateLevProb (_userAge score optimism _horizonYear : ℝ)
    (_lifeTable : LifeTable) (currentYear : ℝ) (refSurvival : List ℝ) : ℝ :=
  let probMass := (computeLevDistribution score optimism currentYear).probMass
  let pAchieve := (List.zipWith (fun s p => s * p) refSurvival probMass).sum
  let capped := pAchieve * 0.90
  if score < 20 then capped * (score / 20) ^ 2 else capped

/-! ### Helper lemmas -/

lemma computeLev_pos (t o cy : ℝ) (h : ¬ o ≤ -10) :
    computeLevDistribution t o cy =
      { medianYear := levMedianCalc t o cy
        probMass := (List.range 121).map fun i : ℕ =>
          levCdf (levMedianCalc t o cy) (cy + (i : ℝ)) -
            levCdf (levMedianCalc t o cy) (cy + (i : ℝ) - 1) } := by
  simp only [computeLevDistribution, if_neg h]

lemma levShift_50 : levShift 50 = 15 := by
  norm_num [levShift]

lemma levSpeedFactor_0 : levSpeedFactor 0 = 1 := by
  norm_num [levSpeedFactor]

lemma medianYear_50_0_2024 :
    (computeLevDistribution 50 0 2024).medianYear = 2055 := by
  rw [computeLev_pos 50 0 2024 (by norm_num)]
  show levMedianCalc 50 0 2024 = 2055
  rw [levMedianCalc, levShift_50, levSpeedFactor_0]
  rw [LEV_MEDIAN_95, show ((2040:ℝ) - 2024) = 16 by norm_num,
    max_eq_right (by norm_num : (0:ℝ) ≤ 16)]
  norm_num

lemma LEV_K_nonneg : 0 ≤ LEV_K := by
  have h := Real.log_nonneg (by norm_num : (1 : ℝ) ≤ 4)
  rw [LEV_K]
  linarith

lemma LEV_K_le_log4 : LEV_K ≤ Real.log 4 := by
  have h := Real.log_nonneg (by norm_num : (1 : ℝ) ≤ 4)
  rw [LEV_K]
  linarith

lemma levCdf_nonneg (m y : ℝ) : 0 ≤ levCdf m y := by
  rw [levCdf]
  positivity

lemma levCdf_le_one (m y : ℝ) : levCdf m y ≤ 1 := by
  rw [levCdf, div_le_one (by positivity)]
  linarith [Real.exp_pos (-LEV_K * (y - m))]

lemma levCdf_mono (m : ℝ) {y1 y2 : ℝ} (h : y1 ≤ y2) :
    levCdf m y1 ≤ levCdf m y2 := by
  rw [levCdf, levCdf]
  have hK := LEV_K_nonneg
  have hexp : Real.exp (-LEV_K * (y2 - m)) ≤ Real.exp (-LEV_K * (y1 - m)) := by
    apply Real.exp_le_exp.mpr
    nlinarith
  exact one_div_le_one_div_of_le (by positivity) (by linarith)

lemma one_sub_levCdf_le (m y : ℝ) :
    1 - levCdf m y ≤ Real.exp (-LEV_K * (y - m)) := by
  rw [levCdf]
  have hep : 0 < Real.exp (-LEV_K * (y - m)) := Real.exp_pos _
  have heq : 1 - 1 / (1 + Real.exp (-LEV_K * (y - m))) =
      Real.exp (-LEV_K * (y - m)) / (1 + Real.exp (-LEV_K * (y - m))) := by
    field_simp
  rw [heq]
  exact div_le_self hep.le (by linarith)

lemma levCdf_le_exp (m y : ℝ) : levCdf m y ≤ Real.exp (LEV_K * (y - m)) := by
  rw [levCdf]
  have hep : 0 < Real.exp (-(LEV_K * (y - m))) := Real.exp_pos _
  calc 1 / (1 + Real.exp (-LEV_K * (y - m)))
      ≤ 1 / Real.exp (-(LEV_K * (y - m))) := by
        apply one_div_le_one_div_of_le hep
        rw [neg_mul]
        linarith
    _ = Real.exp (LEV_K * (y - m)) := by
        rw [Real.exp_neg, one_div, inv_inv]

lemma exp_neg_LEVK_30 : Real.exp (-(LEV_K * 30)) = 1 / 4096 := by
  rw [show -(LEV_K * 30) = (6 : ℕ) * (-Real.log 4) by rw [LEV_K]; push_cast; ring]
  rw [Real.exp_nat_mul, Real.exp_neg, Real.exp_log (by norm_num : (0 : ℝ) < 4)]
  norm_num

lemma exp_decay_le {t : ℝ} (ht : 30 ≤ t) :
    Real.exp (-(LEV_K * t)) ≤ 1 / 4096 := by
  rw [← exp_neg_LEVK_30]
  apply Real.exp_le_exp.mpr
  have hK := LEV_K_nonneg
  nlinarith

lemma sum_map_range_sub (g : ℕ → ℝ) (n : ℕ) :
    ((List.range n).map fun i => g (i + 1) - g i).sum = g n - g 0 := by
  induction n with
  | zero => simp
  | succ n ih =>
    rw [List.range_succ, List.map_append, List.sum_append, ih]
    simp only [List.map_cons, List.map_nil, List.sum_cons, List.sum_nil]
    ring

lemma lev_sum_aux (m cy : ℝ) (n : ℕ) :
    ((List.range n).map fun i : ℕ =>
      levCdf m (cy + (i : ℝ)) - levCdf m (cy + (i : ℝ) - 1)).sum =
    levCdf m (cy + (n : ℝ) - 1) - levCdf m (cy - 1) := by
  induction n with
  | zero =>
    rw [show cy + ((0 : ℕ) : ℝ) - 1 = cy - 1 by push_cast; ring]
    simp
  | succ n ih =>
    rw [List.range_succ, List.map_append, List.sum_append, ih]
    simp only [List.map_cons, List.map_nil, List.sum_cons, List.sum_nil]
    rw [show cy + ((n + 1 : ℕ) : ℝ) - 1 = cy + (n : ℝ) by push_cast; ring]
    ring

lemma lev_sum (m cy : ℝ) :
    ((List.range 121).map fun i : ℕ =>
      levCdf m (cy + (i : ℝ)) - levCdf m (cy + (i : ℝ) - 1)).sum =
    levCdf m (cy + 120) - levCdf m (cy - 1) := by
  rw [lev_sum_aux, show cy + ((121 : ℕ) : ℝ) - 1 = cy + 120 by push_cast; ring]

lemma probMass_sum (t o cy : ℝ) (h : ¬ o ≤ -10) :
    (computeLevDistribution t o cy).probMass.sum =
      levCdf (levMedianCalc t o cy) (cy + 120) -
        levCdf (levMedianCalc t o cy) (cy - 1) := by
  rw [computeLev_pos t o cy h]
  exact lev_sum (levMedianCalc t o cy) cy

lemma probMass_nonneg (t o cy : ℝ) :
    ∀ x ∈ (computeLevDistribution t o cy).probMass, 0 ≤ x := by
  intro x hx
  by_cases h : o ≤ -10
  · simp only [computeLevDistribution, if_pos h] at hx
    simp at hx
  · rw [computeLev_pos t o cy h] at hx
    simp only [List.mem_map, List.mem_range] at hx
    obtain ⟨i, _, rfl⟩ := hx
    have := levCdf_mono (levMedianCalc t o cy)
      (show cy + i - 1 ≤ cy + i by linarith)
    linarith

lemma probMass_sum_le_one (t o cy : ℝ) :
    (computeLevDistribution t o cy).probMass.sum ≤ 1 := by
  by_cases h : o ≤ -10
  · simp [computeLevDistribution, if_pos h]
  · rw [probMass_sum t o cy h]
    have h1 := levCdf_le_one (levMedianCalc t o cy) (cy + 120)
    have h2 := levCdf_nonneg (levMedianCalc t o cy) (cy - 1)
    linarith

lemma zipWith_mul_sum_bounds (s : List ℝ) :
    ∀ p : List ℝ, (∀ x ∈ s, 0 ≤ x ∧ x ≤ 1) → (∀ x ∈ p, 0 ≤ x) →
      0 ≤ (List.zipWith (fun a b => a * b) s p).sum ∧
        (List.zipWith (fun a b => a * b) s p).sum ≤ p.sum := by
  induction s with
  | nil =>
    intro p _ hp
    simp only [List.zipWith_nil_left, List.sum_nil]
    exact ⟨le_refl 0, List.sum_nonneg hp⟩
  | cons a s ih =>
    intro p hs hp
    cases p with
    | nil => simp
    | cons b q =>
      simp only [List.zipWith_cons_cons, List.sum_cons]
      have ha := hs a (by simp)
      have hb := hp b (by simp)
      have ihh := ih q (fun x hx => hs x (by simp [hx]))
        (fun x hx => hp x (by simp [hx]))
      constructor
      · have hab : 0 ≤ a * b := mul_nonneg ha.1 hb
        linarith [ihh.1]
      · have hab : a * b ≤ b := by nlinarith [ha.2, hb]
        linarith [ihh.2]

lemma sigmoid_pos (x : ℝ) : 0 < sigmoid x := by
  rw [sigmoid]
  positivity

lemma sigmoid_lt_one (x : ℝ) : sigmoid x < 1 := by
  rw [sigmoid, div_lt_one (by positivity)]
  linarith [Real.exp_pos (-x)]

lemma getUptakeFactor_pos (p : ℝ) : 0 < getUptakeFactor p := by
  rw [getUptakeFactor]
  linarith [sigmoid_pos ((p - 0.5) / UPTAKE_SIGMOID_WIDTH)]

lemma zscore_50 : getZScoreForCentile 50 = 0 := by
  norm_num [getZScoreForCentile]

lemma levMedianCalc_95_0_2100 : levMedianCalc 95 0 2100 = 2100 := by
  rw [levMedianCalc, levSpeedFactor_0, show levShift 95 = 0 by norm_num [levShift]]
  rw [LEV_MEDIAN_95, show ((2040 : ℝ) - 2100) = -60 by norm_num,
    max_eq_left (by norm_num : (-60 : ℝ) ≤ 0)]
  norm_num

lemma getD_map_range (f : ℕ → ℝ) (m i : ℕ) :
    ((List.range m).map f).getD i 0 = if i < m then f i else 0 := by
  split
  · rename_i h
    rw [List.getD_eq_getElem _ _
      (by rw [List.length_map, List.length_range]; exact h)]
    rw [List.getElem_map, List.getElem_range]
  · rename_i h
    exact List.getD_eq_default _ _
      (by rw [List.length_map, List.length_range]; omega)

lemma qx_getD_bounds (l : List ℝ) (hq : ∀ x ∈ l, 0 ≤ x ∧ x ≤ 1) (i : ℕ)
    {d : ℝ} (hd : 0 ≤ d ∧ d ≤ 1) : 0 ≤ l.getD i d ∧ l.getD i d ≤ 1 := by
  rcases Nat.lt_or_ge i l.length with h | h
  · rw [List.getD_eq_getElem _ _ h]
    exact hq _ (List.getElem_mem h)
  · rw [List.getD_eq_default _ _ h]
    exact hd

lemma qToH_nonneg {q : ℝ} (h : 0 ≤ q) : 0 ≤ qToH q := by
  rw [qToH]
  split
  · norm_num
  · rename_i h1
    have h2 : (0 : ℝ) < 1 - q := by linarith [not_le.mp h1]
    have h3 := Real.log_nonpos (by linarith) (by linarith : (1 : ℝ) - q ≤ 1)
    linarith

lemma hToQ_le_one (h : ℝ) : hToQ h ≤ 1 := by
  rw [hToQ]
  linarith [Real.exp_pos (-h)]

lemma hToQ_nonneg {h : ℝ} (hh : 0 ≤ h) : 0 ≤ hToQ h := by
  rw [hToQ]
  have h1 : Real.exp (-h) ≤ Real.exp 0 :=
    Real.exp_le_exp.mpr (by linarith)
  rw [Real.exp_zero] at h1
  linarith

lemma cohortQFinal_bounds (c : CohortCtx)
    (hq : ∀ x ∈ c.lifeTable.qx, 0 ≤ x ∧ x ≤ 1) (n : ℕ) (B : ℝ) :
    0 ≤ cohortQFinalAt c n B ∧ cohortQFinalAt c n B ≤ 0.999 := by
  simp only [cohortQFinalAt]
  refine ⟨le_min (by norm_num) (hToQ_nonneg ?_), min_le_left _ _⟩
  have hqb := qx_getD_bounds c.lifeTable.qx hq
    (min (max 0 ⌊B⌋).toNat (c.lifeTable.ages.getLastD 0))
    (by norm_num : (0 : ℝ) ≤ 0.99 ∧ (0.99 : ℝ) ≤ 1)
  have h0 : 0 ≤ qToH (c.lifeTable.qx.getD
      (min (max 0 ⌊B⌋).toNat (c.lifeTable.ages.getLastD 0)) 0.99) :=
    qToH_nonneg hqb.1
  exact mul_nonneg h0
    (le_trans (by norm_num : (0 : ℝ) ≤ 0.05) (le_max_left _ _))

lemma cohortState_S_nonneg (c : CohortCtx)
    (hq : ∀ x ∈ c.lifeTable.qx, 0 ≤ x ∧ x ≤ 1) (n : ℕ) :
    0 ≤ (cohortState c n).1 := by
  induction n with
  | zero => norm_num [cohortState]
  | succ n ih =>
    rw [cohortState]
    dsimp only
    have hb := cohortQFinal_bounds c hq n (cohortState c n).2
    exact mul_nonneg ih (by linarith [hb.2])

lemma cohortState_S_step (c : CohortCtx)
    (hq : ∀ x ∈ c.lifeTable.qx, 0 ≤ x ∧ x ≤ 1) (n : ℕ) :
    (cohortState c (n + 1)).1 ≤ (cohortState c n).1 := by
  rw [cohortState]
  dsimp only
  have hS := cohortState_S_nonneg c hq n
  have hb := cohortQFinal_bounds c hq n (cohortState c n).2
  nlinarith [hb.1, hb.2]

lemma getPaceOfAging_mem (year score quantileKey optimism horizonYear
    currentYear levMedianYear : ℝ) :
    -0.50 ≤ getPaceOfAging year score quantileKey optimism horizonYear
        currentYear levMedianYear ∧
    getPaceOfAging year score quantileKey optimism horizonYear currentYear
        levMedianYear ≤ 2.00 := by
  simp only [getPaceOfAging]
  exact ⟨le_min (by norm_num) (le_max_left _ _), min_le_left _ _⟩

lemma getProgressMultiplier_pos (year score quantileKey optimism horizonYear
    currentYear : ℝ) :
    0 < getProgressMultiplier year score quantileKey optimism horizonYear
      currentYear := by
  simp only [getProgressMultiplier]
  split
  · norm_num
  · split
    · norm_num
    · exact lt_min (by norm_num)
        (lt_of_lt_of_le (by norm_num) (le_max_left _ _))

lemma getProgressMultiplier_le (year score quantileKey optimism horizonYear
    currentYear : ℝ) :
    getProgressMultiplier year score quantileKey optimism horizonYear
      currentYear ≤ 1.20 := by
  simp only [getProgressMultiplier]
  split
  · norm_num
  · split
    · norm_num
    · exact min_le_left _ _

lemma getFrailtyMultiplier_pos (s : ℝ) : 0 < getFrailtyMultiplier s := by
  rw [getFrailtyMultiplier]
  exact Real.exp_pos _

lemma getFrailtyMultiplier_le {s : ℝ} (h : 1 ≤ s) :
    getFrailtyMultiplier s ≤ 5 / 3 := by
  rw [getFrailtyMultiplier]
  have h1 : FRAILTY_A * (0.5 - s / 100) ≤ 1 / 2 := by
    rw [FRAILTY_A]
    nlinarith
  have h2 := Real.exp_le_exp.mpr h1
  have h4 : Real.exp (1 / 2) ^ 2 = Real.exp 1 := by
    rw [← Real.exp_nat_mul]
    norm_num
  have h5 : Real.exp (1 / 2) ^ 2 ≤ (5 / 3) ^ 2 := by
    rw [h4]
    nlinarith [Real.exp_one_lt_d9]
  have h6 : Real.exp (1 / 2) ≤ 5 / 3 := by
    nlinarith [Real.exp_pos ((1 : ℝ) / 2)]
  linarith

lemma frailty_times_progress_mem {s : ℝ} (hs : 1 ≤ s)
    (y q o yH cy : ℝ) :
    -0.50 ≤ getFrailtyMultiplier s * getProgressMultiplier y s q o yH cy ∧
    getFrailtyMultiplier s * getProgressMultiplier y s q o yH cy ≤ 2.00 := by
  have hz0 := getFrailtyMultiplier_pos s
  have hz1 := getFrailtyMultiplier_le hs
  have hr0 := getProgressMultiplier_pos y s q o yH cy
  have hr1 := getProgressMultiplier_le y s q o yH cy
  have hmul := mul_le_mul hz1 hr1 hr0.le (by norm_num : (0 : ℝ) ≤ 5 / 3)
  constructor
  · nlinarith [mul_pos hz0 hr0]
  · calc getFrailtyMultiplier s * getProgressMultiplier y s q o yH cy
        ≤ 5 / 3 * 1.20 := hmul
    _ ≤ 2.00 := by norm_num

lemma effectiveScore_nonprotocol (c : CohortCtx)
    (h : ¬ c.isProtocol = true) (n : ℕ) :
    effectiveScoreAt c n = c.startScore := by
  rw [effectiveScoreAt, if_neg (fun hc => h hc.1), if_neg h]

/-! ### Claims -/

/-- C1 counterexample: at currentYear = 2100, targetScore = 95, optimism = 0
(inputs inside the claimed ranges) the probMass still has 121 entries but the
LEV median equals currentYear itself, so nearly half of the logistic mass
falls before the window: the sum is not within 1e-3 of 1. -/
theorem claim_C1_counterexample :
    (-10 : ℝ) < 0 ∧ (0 : ℝ) ≤ 5 ∧ (1 : ℝ) ≤ 95 ∧ (95 : ℝ) ≤ 99 ∧
    (computeLevDistribution 95 0 2100).probMass.length = 121 ∧
    ¬ |(computeLevDistribution 95 0 2100).probMass.sum - 1| ≤ 1 / 1000 := by
  refine ⟨by norm_num, by norm_num, by norm_num, by norm_num, ?_, ?_⟩
  · rw [computeLev_pos 95 0 2100 (by norm_num)]
    dsimp only
    rw [List.length_map, List.length_range]
  · have hs := probMass_sum 95 0 2100 (by norm_num)
    rw [levMedianCalc_95_0_2100] at hs
    set A := levCdf 2100 (2100 + 120) with hAdef
    set B := levCdf 2100 (2100 - 1) with hBdef
    have hA : A ≤ 1 := levCdf_le_one _ _
    have hB : (1 : ℝ) / 5 ≤ B := by
      rw [hBdef, levCdf, show -LEV_K * (2100 - 1 - 2100) = LEV_K by ring]
      have h2 : Real.exp LEV_K ≤ 4 := by
        calc Real.exp LEV_K ≤ Real.exp (Real.log 4) :=
              Real.exp_le_exp.mpr LEV_K_le_log4
          _ = 4 := Real.exp_log (by norm_num)
      have h3 : 0 < 1 + Real.exp LEV_K := by positivity
      exact one_div_le_one_div_of_le h3 (by linarith)
    rw [not_le]
    calc (1 : ℝ) / 1000 < 1 / 5 := by norm_num
      _ ≤ -((computeLevDistribution 95 0 2100).probMass.sum - 1) := by
          rw [hs]; linarith
      _ ≤ |(computeLevDistribution 95 0 2100).probMass.sum - 1| :=
          neg_le_abs _

/-- C1 amended: for optimism > -10 the probMass returned by
`computeLevDistribution` always has 121 entries, and its entries sum to 1
within 1e-3 whenever the computed median year lies between currentYear + 30
and currentYear + 90 (so both logistic tails are inside the 121-year
window); without that proviso the sum can be far from 1. -/
theorem claim_C1_amended (targetScore optimism currentYear : ℝ)
    (ho : -10 < optimism)
    (hd1 : 30 ≤ (computeLevDistribution targetScore optimism
      currentYear).medianYear - currentYear)
    (hd2 : (computeLevDistribution targetScore optimism
      currentYear).medianYear - currentYear ≤ 90) :
    (computeLevDistribution targetScore optimism currentYear).probMass.length
        = 121 ∧
    |(computeLevDistribution targetScore optimism
        currentYear).probMass.sum - 1| ≤ 1 / 1000 := by
  have h : ¬ optimism ≤ -10 := not_le.mpr ho
  have hmed : (computeLevDistribution targetScore optimism
      currentYear).medianYear = levMedianCalc targetScore optimism
      currentYear := by
    rw [computeLev_pos targetScore optimism currentYear h]
  rw [hmed] at hd1 hd2
  constructor
  · rw [computeLev_pos targetScore optimism currentYear h]
    dsimp only
    rw [List.length_map, List.length_range]
  · rw [probMass_sum targetScore optimism currentYear h]
    set m := levMedianCalc targetScore optimism currentYear with hm
    have hA1 := levCdf_le_one m (currentYear + 120)
    have hB0 := levCdf_nonneg m (currentYear - 1)
    have hA2 : 1 - levCdf m (currentYear + 120) ≤ 1 / 4096 := by
      refine le_trans (one_sub_levCdf_le m (currentYear + 120)) ?_
      rw [show -LEV_K * (currentYear + 120 - m) =
        -(LEV_K * (currentYear + 120 - m)) by ring]
      exact exp_decay_le (by linarith)
    have hB2 : levCdf m (currentYear - 1) ≤ 1 / 4096 := by
      refine le_trans (levCdf_le_exp m (currentYear - 1)) ?_
      rw [show LEV_K * (currentYear - 1 - m) =
        -(LEV_K * (m + 1 - currentYear)) by ring]
      exact exp_decay_le (by linarith)
    rw [abs_le]
    constructor <;> linarith

/-- Witness for the amended C1 at targetScore = 50, optimism = 0,
currentYear = 2024 (median year 2055, delay 31). -/
theorem claim_C1_amended_witness :
    (computeLevDistribution 50 0 2024).probMass.length = 121 ∧
    |(computeLevDistribution 50 0 2024).probMass.sum - 1| ≤ 1 / 1000 :=
  claim_C1_amended 50 0 2024 (by norm_num)
    (by rw [medianYear_50_0_2024]; norm_num)
    (by rw [medianYear_50_0_2024]; norm_num)

/-- C2: for documented scores (1..99) and any optimism, currentYear and
refSurvival with entries in [0,1], `calculateLevProb` returns a value in
[0, 0.90]: the survival-weighted PMF sum is at most the total PMF mass
(at most 1), multiplied by the 0.90 cap and, when score < 20, by the
quadratic penalty (score/20)² which lies in [0,1). -/
theorem claim_C2 (userAge score optimism horizonYear : ℝ)
    (lifeTable : LifeTable) (currentYear : ℝ) (refSurvival : List ℝ)
    (hs1 : 1 ≤ score) (hs99 : score ≤ 99)
    (hr : ∀ x ∈ refSurvival, 0 ≤ x ∧ x ≤ 1) :
    0 ≤ calculateLevProb userAge score optimism horizonYear lifeTable
        currentYear refSurvival ∧
    calculateLevProb userAge score optimism horizonYear lifeTable
        currentYear refSurvival ≤ 0.90 := by
  have hp := probMass_nonneg score optimism currentYear
  have hsum := probMass_sum_le_one score optimism currentYear
  have hz := zipWith_mul_sum_bounds refSurvival
    (computeLevDistribution score optimism currentYear).probMass hr hp
  have h1 := hz.1
  have h2 : (List.zipWith (fun a b => a * b) refSurvival
      (computeLevDistribution score optimism currentYear).probMass).sum ≤ 1 :=
    le_trans hz.2 hsum
  simp only [calculateLevProb]
  split
  · rename_i hlt
    have hpen0 : 0 ≤ (score / 20) ^ 2 := sq_nonneg _
    have hpen1 : (score / 20) ^ 2 ≤ 1 := by nlinarith
    constructor
    · positivity
    · nlinarith
  · constructor
    · positivity
    · nlinarith

/-- Witness for C2 at score = 50, optimism = 0, currentYear = 2024,
refSurvival = [1]. -/
theorem claim_C2_witness :
    0 ≤ calculateLevProb 40 50 0 2100 { ages := [], qx := [] } 2024 [1] ∧
    calculateLevProb 40 50 0 2100 { ages := [], qx := [] } 2024 [1] ≤ 0.90 :=
  claim_C2 40 50 0 2100 { ages := [], qx := [] } 2024 [1] (by norm_num)
    (by norm_num) (by intro x hx; simp at hx; simp [hx])

/-- C5 counterexample: with year = 2025, score = 50, quantileKey = 50,
horizonYear = 2100, currentYear = 2024 fixed, the output of
`getProgressMultiplier` at optimism = -9 is strictly below the output at
optimism = -10, so it is not non-decreasing in optimism over -10..5. -/
theorem claim_C5_counterexample :
    getProgressMultiplier 2025 50 50 (-9) 2100 2024 <
      getProgressMultiplier 2025 50 50 (-10) 2100 2024 := by
  have hmin : min (2025 : ℝ) 2100 = 2025 := min_eq_left (by norm_num)
  have hE : max (0 : ℝ) (min (2025 : ℝ) 2100 - 2024) = 1 := by
    rw [hmin, show (2025 : ℝ) - 2024 = 1 by norm_num]
    exact max_eq_right (by norm_num)
  have hR : getProgressMultiplier 2025 50 50 (-10) 2100 2024 = 1 := by
    simp only [getProgressMultiplier, hE]
    rw [if_neg (by norm_num), if_pos (by norm_num : (-10 : ℝ) ≤ -10)]
    norm_num
  have hu : getUptakeFactor ((50 : ℝ) / 100) = 1 := by
    rw [getUptakeFactor,
      show ((50 : ℝ) / 100 - 0.5) / UPTAKE_SIGMOID_WIDTH = 0 by
        norm_num [UPTAKE_SIGMOID_WIDTH],
      sigmoid, neg_zero, Real.exp_zero]
    norm_num
  have hL : getProgressMultiplier 2025 50 50 (-9) 2100 2024 =
      min 1.20 (max 0.01
        (Real.exp (-(PROGRESS_RATE_BASE * (1 + (-9) * 0.1)) * 1 * 1))) := by
    simp only [getProgressMultiplier, hE, hu, zscore_50, zero_mul, add_zero]
    rw [if_neg (by norm_num), if_neg (by norm_num : ¬ (-9 : ℝ) ≤ -10)]
  rw [hL, hR,
    show -(PROGRESS_RATE_BASE * (1 + (-9 : ℝ) * 0.1)) * 1 * 1 = -0.0018 by
      norm_num [PROGRESS_RATE_BASE]]
  have h1 : Real.exp (-0.0018) < 1 := Real.exp_lt_one_iff.mpr (by norm_num)
  have h2 : (0.01 : ℝ) ≤ Real.exp (-0.0018) := by
    have := Real.add_one_le_exp (-0.0018)
    linarith
  rw [max_eq_right h2, min_eq_right (by linarith : Real.exp (-0.0018) ≤ 1.20)]
  exact h1

/-- C5 amended: for the median quantile key 50 (z-score 0) and fixed year,
score, horizonYear, currentYear, the output of `getProgressMultiplier` is
non-increasing as optimism increases (more progress means a smaller hazard
multiplier); for other quantile keys the sigma term makes the direction
input-dependent, and at quantile 50 the value drops from 1.0 when optimism
leaves the -10 hardlock, so the claimed non-decreasing direction is wrong. -/
theorem claim_C5_amended (year score horizonYear currentYear o1 o2 : ℝ)
    (h12 : o1 ≤ o2) :
    getProgressMultiplier year score 50 o2 horizonYear currentYear ≤
      getProgressMultiplier year score 50 o1 horizonYear currentYear := by
  simp only [getProgressMultiplier, zscore_50, zero_mul, add_zero]
  set E := max 0 (min year horizonYear - currentYear) with hEdef
  set u := getUptakeFactor (score / 100) with hudef
  have hu : 0 < u := getUptakeFactor_pos _
  by_cases hE0 : E ≤ 0
  · rw [if_pos hE0, if_pos hE0]
  · rw [if_neg hE0, if_neg hE0]
    have hEpos : 0 < E := lt_of_not_le hE0
    have hbase : (0 : ℝ) < PROGRESS_RATE_BASE := by norm_num [PROGRESS_RATE_BASE]
    by_cases h2 : o2 ≤ -10
    · rw [if_pos h2, if_pos (le_trans h12 h2)]
    · rw [if_neg h2]
      have ho2 : (-10 : ℝ) < o2 := not_le.mp h2
      have hk2 : (0 : ℝ) < 1 + o2 * 0.1 := by linarith
      have hmu2 : -(PROGRESS_RATE_BASE * (1 + o2 * 0.1)) * E * u < 0 := by
        have : 0 < PROGRESS_RATE_BASE * (1 + o2 * 0.1) * E * u := by positivity
        nlinarith
      have hexp2 : Real.exp (-(PROGRESS_RATE_BASE * (1 + o2 * 0.1)) * E * u) < 1 :=
        Real.exp_lt_one_iff.mpr hmu2
      by_cases h1 : o1 ≤ -10
      · rw [if_pos h1]
        have : min 1.20 (max 0.01
            (Real.exp (-(PROGRESS_RATE_BASE * (1 + o2 * 0.1)) * E * u))) ≤ 1 :=
          le_trans (min_le_right _ _) (max_le (by norm_num) hexp2.le)
        calc min 1.20 (max 0.01
              (Real.exp (-(PROGRESS_RATE_BASE * (1 + o2 * 0.1)) * E * u)))
            ≤ 1 := this
          _ = 1.0 := by norm_num
      · rw [if_neg h1]
        have hmu12 : -(PROGRESS_RATE_BASE * (1 + o2 * 0.1)) * E * u ≤
            -(PROGRESS_RATE_BASE * (1 + o1 * 0.1)) * E * u := by
          nlinarith
        exact min_le_min (le_refl _)
          (max_le_max (le_refl _) (Real.exp_le_exp.mpr hmu12))

/-- Witness for the amended C5 at optimism 0 ≤ 1, year 2030, score 50,
horizonYear 2100, currentYear 2024. -/
theorem claim_C5_amended_witness :
    getProgressMultiplier 2030 50 50 1 2100 2024 ≤
      getProgressMultiplier 2030 50 50 0 2100 2024 :=
  claim_C5_amended 2030 50 2100 2024 0 1 (by norm_num)

/-- C3: when the life-table death probabilities lie in [0,1], the survival
sequence returned by `simulateCohort` is non-increasing (each step multiplies
the cumulative survival by 1 - qFinal with qFinal ∈ [0, 0.999]) and starts
at exactly 1.  Out-of-range reads of the sequence are taken as 0. -/
theorem claim_C3 (startAge : ℕ) (sex : Sex)
    (startScore targetScore horizonYear optimism : ℝ) (lifeTable : LifeTable)
    (currentYear : ℝ) (isProtocol : Bool) (progressQuantile : ℝ)
    (hq : ∀ x ∈ lifeTable.qx, 0 ≤ x ∧ x ≤ 1) :
    (∀ i : ℕ,
      (simulateCohort startAge sex startScore targetScore horizonYear optimism
          lifeTable currentYear isProtocol progressQuantile).survival.getD
          (i + 1) 0 ≤
        (simulateCohort startAge sex startScore targetScore horizonYear
          optimism lifeTable currentYear isProtocol
          progressQuantile).survival.getD i 0) ∧
    (simulateCohort startAge sex startScore targetScore horizonYear optimism
        lifeTable currentYear isProtocol progressQuantile).survival.getD 0 0
      = 1 := by
  have hs : (simulateCohort startAge sex startScore targetScore horizonYear
      optimism lifeTable currentYear isProtocol progressQuantile).survival =
      cohortSurvivalList
        { startAge := startAge, startScore := startScore
          targetScore := targetScore, horizonYear := horizonYear
          optimism := optimism, lifeTable := lifeTable
          currentYear := currentYear, isProtocol := isProtocol
          progressQuantile := progressQuantile } := rfl
  rw [hs]
  set c : CohortCtx :=
    { startAge := startAge, startScore := startScore
      targetScore := targetScore, horizonYear := horizonYear
      optimism := optimism, lifeTable := lifeTable
      currentYear := currentYear, isProtocol := isProtocol
      progressQuantile := progressQuantile } with hc
  have hq2 : ∀ x ∈ c.lifeTable.qx, 0 ≤ x ∧ x ≤ 1 := hq
  constructor
  · intro i
    rw [cohortSurvivalList, getD_map_range, getD_map_range]
    by_cases hi : i + 1 < cohortSteps c + 1
    · rw [if_pos hi, if_pos (by omega)]
      exact cohortState_S_step c hq2 i
    · rw [if_neg hi]
      split
      · exact cohortState_S_nonneg c hq2 i
      · exact le_refl 0
  · rw [cohortSurvivalList, getD_map_range, if_pos (by omega)]
    norm_num [cohortState]

/-- Witness for C3 at startAge 30, protocol run, with a two-entry life
table whose probabilities are in [0,1]. -/
theorem claim_C3_witness :
    (∀ i : ℕ,
      (simulateCohort 30 Sex.male 50 70 2100 0
          { ages := [0, 1], qx := [0.01, 0.02] } 2024 true 50).survival.getD
          (i + 1) 0 ≤
        (simulateCohort 30 Sex.male 50 70 2100 0
          { ages := [0, 1], qx := [0.01, 0.02] } 2024 true
          50).survival.getD i 0) ∧
    (simulateCohort 30 Sex.male 50 70 2100 0
        { ages := [0, 1], qx := [0.01, 0.02] } 2024 true 50).survival.getD 0 0
      = 1 :=
  claim_C3 30 Sex.male 50 70 2100 0 { ages := [0, 1], qx := [0.01, 0.02] }
    2024 true 50
    (by
      intro x hx
      simp only [List.mem_cons, List.not_mem_nil, or_false] at hx
      rcases hx with h | h <;> norm_num [h])

/-- C6: with scores in 1..99 every entry of the pace sequence returned by
`simulateCohort` lies in [-0.50, 2.00]: the protocol path is clamped by
`getPaceOfAging` and the non-protocol path is the positive product
frailtyMultiplier × progressMultiplier ≤ (5/3)·1.20 = 2. -/
theorem claim_C6 (startAge : ℕ) (sex : Sex)
    (startScore targetScore horizonYear optimism : ℝ) (lifeTable : LifeTable)
    (currentYear : ℝ) (isProtocol : Bool) (progressQuantile : ℝ)
    (h1 : 1 ≤ startScore) (h99 : startScore ≤ 99)
    (ht1 : 1 ≤ targetScore) (ht99 : targetScore ≤ 99) :
    ∀ x ∈ (simulateCohort startAge sex startScore targetScore horizonYear
      optimism lifeTable currentYear isProtocol progressQuantile).pace,
      -0.50 ≤ x ∧ x ≤ 2.00 := by
  have hp : (simulateCohort startAge sex startScore targetScore horizonYear
      optimism lifeTable currentYear isProtocol progressQuantile).pace =
      cohortPaceList
        { startAge := startAge, startScore := startScore
          targetScore := targetScore, horizonYear := horizonYear
          optimism := optimism, lifeTable := lifeTable
          currentYear := currentYear, isProtocol := isProtocol
          progressQuantile := progressQuantile } := rfl
  rw [hp]
  set c : CohortCtx :=
    { startAge := startAge, startScore := startScore
      targetScore := targetScore, horizonYear := horizonYear
      optimism := optimism, lifeTable := lifeTable
      currentYear := currentYear, isProtocol := isProtocol
      progressQuantile := progressQuantile } with hc
  intro x hx
  rw [cohortPaceList] at hx
  rcases List.mem_cons.mp hx with hx0 | hxm
  · subst hx0
    simp only [initialPaceVal]
    split
    · exact getPaceOfAging_mem _ _ _ _ _ _ _
    · exact frailty_times_progress_mem h1 _ _ _ _ _
  · obtain ⟨n, hn, rfl⟩ := List.mem_map.mp hxm
    simp only [cohortPaceAt]
    split
    · exact getPaceOfAging_mem _ _ _ _ _ _ _
    · rename_i hnp
      rw [effectiveScore_nonprotocol c hnp n]
      exact frailty_times_progress_mem h1 _ _ _ _ _

/-- Witness for C6 with scores 50 and 70 (both in 1..99), non-protocol,
evaluated at the first pace entry. -/
theorem claim_C6_witness :
    -0.50 ≤ (simulateCohort 30 Sex.female 50 70 2100 0
      { ages := [0, 1], qx := [0.01, 0.02] } 2024 false 50).pace.headI ∧
    (simulateCohort 30 Sex.female 50 70 2100 0
      { ages := [0, 1], qx := [0.01, 0.02] } 2024 false 50).pace.headI
      ≤ 2.00 :=
  claim_C6 30 Sex.female 50 70 2100 0 { ages := [0, 1], qx := [0.01, 0.02] }
    2024 false 50 (by norm_num) (by norm_num) (by norm_num) (by norm_num)
    ((simulateCohort 30 Sex.female 50 70 2100 0
      { ages := [0, 1], qx := [0.01, 0.02] } 2024 false 50).pace.headI)
    (List.mem_cons_self _ _)

/-- C7: for q ∈ [0,1), `hToQ (qToH q) = q` exactly over the reals; `qToH`
returns the constant 100 for q ≥ 1; and `hToQ h = 1 - exp (-h)`. -/
theorem claim_C7 (q h : ℝ) :
    (0 ≤ q → q < 1 → hToQ (qToH q) = q) ∧
    (1 ≤ q → qToH q = 100) ∧
    hToQ h = 1 - Real.exp (-h) := by
  refine ⟨fun _ h1 => ?_, fun h1 => ?_, rfl⟩
  · rw [qToH, if_neg (not_le.mpr h1), hToQ, neg_neg,
      Real.exp_log (by linarith)]
    ring
  · rw [qToH, if_pos h1]

/-- Witness for C7 at q = 1/2 and q = 2, h = 3. -/
theorem claim_C7_witness :
    hToQ (qToH (1 / 2)) = 1 / 2 ∧ qToH 2 = 100 ∧
    hToQ 3 = 1 - Real.exp (-3) :=
  ⟨(claim_C7 (1 / 2) 0).1 (by norm_num) (by norm_num),
   (claim_C7 2 0).2.1 (by norm_num), (claim_C7 0 3).2.2⟩

/-- C4: optimism ≤ -10 short-circuits `getProgressMultiplier` to exactly 1.0
for every year, score, quantileKey, horizonYear, currentYear, and makes
`computeLevDistribution` return exactly {medianYear := 9999, probMass := []}
for every targetScore and currentYear. -/
theorem claim_C4 (optimism : ℝ) (h : optimism ≤ -10) :
    (∀ year score quantileKey horizonYear currentYear : ℝ,
      getProgressMultiplier year score quantileKey optimism horizonYear
        currentYear = 1) ∧
    (∀ targetScore currentYear : ℝ,
      computeLevDistribution targetScore optimism currentYear =
        { medianYear := 9999, probMass := [] }) := by
  constructor
  · intro year score qk yH cy
    simp only [getProgressMultiplier, if_pos h]
    split
    · norm_num
    · norm_num
  · intro t cy
    simp only [computeLevDistribution, if_pos h]

/-- Witness for C4 at optimism = -10. -/
theorem claim_C4_witness :
    getProgressMultiplier 2030 50 50 (-10) 2100 2024 = 1 ∧
    computeLevDistribution 50 (-10) 2024 =
      { medianYear := 9999, probMass := [] } :=
  ⟨(claim_C4 (-10) (by norm_num)).1 2030 50 50 2100 2024,
   (claim_C4 (-10) (by norm_num)).2 50 2024⟩

/-- C8: in `getPaceOfAging` the rejuvenation pull `L` is independent of the
quantileKey argument: for any two quantile keys q1 and q2 (all other
arguments equal) the two results are `clamp (z*r_q1 - L)` and
`clamp (z*r_q2 - L)` for the same `L = rejuvenationPull …`, which is built
from the 50th-percentile progress multiplier at the rounded LEV median
year and equals
`(z*r_50(yLEV) + 0.20) * (1 - exp (-(year - yLEV)/6))` when
`year ≥ yLEV ∧ optimism > -10`, else 0. -/
theorem claim_C8 (year score q1 q2 optimism horizonYear currentYear
    levMedianYear : ℝ) :
    getPaceOfAging year score q1 optimism horizonYear currentYear
        levMedianYear =
      min 2.00 (max (-0.50)
        (getFrailtyMultiplier score *
          getProgressMultiplier year score q1 optimism horizonYear currentYear -
          rejuvenationPull year score optimism horizonYear currentYear
            levMedianYear)) ∧
    getPaceOfAging year score q2 optimism horizonYear currentYear
        levMedianYear =
      min 2.00 (max (-0.50)
        (getFrailtyMultiplier score *
          getProgressMultiplier year score q2 optimism horizonYear currentYear -
          rejuvenationPull year score optimism horizonYear currentYear
            levMedianYear)) ∧
    rejuvenationPull year score optimism horizonYear currentYear levMedianYear =
      (if ((round levMedianYear : ℤ) : ℝ) ≤ year ∧ -10 < optimism then
        (getFrailtyMultiplier score *
          getProgressMultiplier ((round levMedianYear : ℤ) : ℝ) score 50
            optimism horizonYear currentYear + REJUV_EXTRA) *
          (1 - Real.exp (-(year - ((round levMedianYear : ℤ) : ℝ)) / REJUV_TAU))
      else 0) :=
  ⟨rfl, rfl, rfl⟩

/-- C9: for currentYear = 2024, targetScore = 50, optimism = 0 the shift is
15 (boundary of the 50-75 band), baseDelay95 = 16, speedFactor = 1, and
`computeLevDistribution` returns medianYear = 2055. -/
theorem claim_C9 :
    levShift 50 = 15 ∧ levSpeedFactor 0 = 1 ∧
    max (0 : ℝ) (LEV_MEDIAN_95 - 2024) = 16 ∧
    (computeLevDistribution 50 0 2024).medianYear = 2055 := by
  refine ⟨levShift_50, levSpeedFactor_0, ?_, medianYear_50_0_2024⟩
  rw [LEV_MEDIAN_95]
  norm_num

/-- C10: `calculateLevProb` depends only on score, optimism, currentYear and
refSurvival; userAge, horizonYear and lifeTable are ignored. -/
theorem claim_C10 (userAge1 userAge2 score optimism horizonYear1
    horizonYear2 : ℝ) (lifeTable1 lifeTable2 : LifeTable) (currentYear : ℝ)
    (refSurvival : List ℝ) :
    calculateLevProb userAge1 score optimism horizonYear1 lifeTable1
        currentYear refSurvival =
      calculateLevProb userAge2 score optimism horizonYear2 lifeTable2
        currentYear refSurvival := rfl

end LevMath

end
